import Mathlib

/-!
Shallow embedding of the WLFI trading bot (`src/main.py`) and verification of
the specification's claims about it.

Prices, balances, sizes, fractions and timestamps are modelled as exact
rationals; Python division by a rational denominator is total in this model
(division by zero yields zero, a case the reachable states never exercise
because every stored price is positive).  Network effects are modelled as
explicit inputs: each procedure that places or closes an order receives the
order's success as a boolean and, for opens, the fill price fetched inside
`open_position_market`; each procedure that reads market data receives the
freshly fetched snapshot.  The orders a procedure sends to the venue are
returned as an explicit list.
-/

namespace BotWlfi

/-- LEVERAGE = 4 (module constant). -/
def LEVERAGE : ℚ := 4

/-- POSITION_SIZE_PERCENT = 0.96 (module constant). -/
def POSITION_SIZE_PERCENT : ℚ := 96 / 100

/-- MIN_ORDER_VALUE = 5 (module constant). -/
def MIN_ORDER_VALUE : ℚ := 5

/-- STOP_LOSS_PERCENT = 0.07 (module constant). -/
def STOP_LOSS_PERCENT : ℚ := 7 / 100

/-- TRAILING_PROFIT_DROP = 0.25 (module constant). -/
def TRAILING_PROFIT_DROP : ℚ := 1 / 4

/-- REENTRY_THRESHOLD = 0.003 (module constant). -/
def REENTRY_THRESHOLD : ℚ := 3 / 1000

/-- MIN_PROFIT_FOR_TRAILING = 0.008 (module constant). -/
def MIN_PROFIT_FOR_TRAILING : ℚ := 8 / 1000

/-- Python's `round(x, 0)`: round to the nearest integer, ties to even
(banker's rounding). -/
def pyRound0 (x : ℚ) : ℚ :=
  let n : ℤ := Int.floor x
  let frac : ℚ := x - n
  if frac < 1 / 2 then (n : ℚ)
  else if 1 / 2 < frac then ((n + 1 : ℤ) : ℚ)
  else if n % 2 = 0 then (n : ℚ) else ((n + 1 : ℤ) : ℚ)

/-- `calculate_quantity(balance, price)` from `src/main.py`: exposure is
`balance * POSITION_SIZE_PERCENT * LEVERAGE`; below `MIN_ORDER_VALUE` the
quantity is 0, otherwise `round(exposure / price, 0)`. -/
def calculate_quantity (balance price : ℚ) : ℚ :=
  let capital := balance * POSITION_SIZE_PERCENT
  let exposure := capital * LEVERAGE
  if exposure < MIN_ORDER_VALUE then 0
  else pyRound0 (exposure / price)

/-- An order sent to the venue: a market open of a given size on the order
side (the string sent as `side`: "buy" or "sell"), or a reduce-only market
close of the tracked position side ("long" or "short"). -/
inductive Order
  | openOrder (side : String) (size : ℚ)
  | closeOrder (side : String)
deriving DecidableEq, Repr

/-- True exactly on open orders. -/
def Order.is_open_order : Order → Bool
  | .openOrder _ _ => true
  | .closeOrder _ => false

/-- The `position_tracker` dictionary of `src/main.py`, one field per key. -/
structure PositionTracker where
  entry_price : ℚ
  side : String
  size : ℚ
  stop_loss_price : ℚ
  last_check : ℚ
  peak_profit_percent : ℚ
  temporarily_closed : Bool
  reentry_price : ℚ
  reentry_attempts : ℕ
  last_trailing_action : ℚ
  tradingview_active : Bool
  tv_position : String
deriving DecidableEq, Repr

/-- The initial `position_tracker` value at module load. -/
def initial_tracker : PositionTracker where
  entry_price := 0
  side := ""
  size := 0
  stop_loss_price := 0
  last_check := 0
  peak_profit_percent := 0
  temporarily_closed := false
  reentry_price := 0
  reentry_attempts := 0
  last_trailing_action := 0
  tradingview_active := false
  tv_position := ""

/-- A market snapshot, as returned by `get_cached_data()` after a forced
refresh: account balance, last price, and venue long/short position sizes. -/
structure Snapshot where
  balance : ℚ
  price : ℚ
  long_size : ℚ
  short_size : ℚ
deriving DecidableEq, Repr

/-- `open_position_market(symbol, side, size)` from `src/main.py`.
`fill_price` is the fresh price fetched inside the function via
`get_current_price()`; `order_ok` is the venue's success code for the placed
order.  Returns the updated tracker, the boolean result, and the orders sent.
On success the tracker is updated: entry price, side ("long" iff the order
side is "buy"), size, `temporarily_closed := false`, `reentry_attempts := 0`,
the trailing-action timestamp, and the leverage-adjusted stop price. -/
def open_position_market (t : PositionTracker) (side : String) (size : ℚ)
    (fill_price : ℚ) (order_ok : Bool) (now : ℚ) :
    PositionTracker × Bool × List Order :=
  if size ≤ 0 then (t, false, [])
  else if fill_price ≤ 0 then (t, false, [])
  else if order_ok then
    let newSide := if side = "buy" then "long" else "short"
    let stop_price :=
      if newSide = "long" then fill_price * (1 - STOP_LOSS_PERCENT / LEVERAGE)
      else fill_price * (1 + STOP_LOSS_PERCENT / LEVERAGE)
    ({ t with
        entry_price := fill_price
        side := newSide
        size := size
        temporarily_closed := false
        reentry_attempts := 0
        last_trailing_action := now
        stop_loss_price := stop_price },
      true, [Order.openOrder side size])
  else (t, false, [Order.openOrder side size])

/-- `check_stop_loss()` from `src/main.py`.  `now` is the procedure's own
`time.time()`, `snap` the freshly fetched market data, `close_ok` the venue's
answer to a close order if one is placed. -/
def check_stop_loss (t : PositionTracker) (now : ℚ) (snap : Snapshot)
    (close_ok : Bool) : PositionTracker × List Order :=
  if ¬ t.tradingview_active then (t, [])
  else if t.side = "" ∨ t.size ≤ 0 then (t, [])
  else if now - t.last_check < 1 / 2 then (t, [])
  else
    let t1 := { t with last_check := now }
    if snap.price ≤ 0 then (t1, [])
    else
      let tracked_size := t.size
      let actual_size :=
        if t.side = "long" then snap.long_size else snap.short_size
      if actual_size = 0 ∧ tracked_size > 0 then
        ({ t1 with side := "", size := 0, temporarily_closed := false }, [])
      else
        let stop_triggered :=
          (t.side = "long" ∧ snap.price ≤ t.stop_loss_price) ∨
          (t.side = "short" ∧ snap.price ≥ t.stop_loss_price)
        if stop_triggered then
          if close_ok then
            ({ t1 with side := "", size := 0, temporarily_closed := false },
              [Order.closeOrder t.side])
          else (t1, [Order.closeOrder t.side])
        else (t1, [])

/-- `check_reentry()` from `src/main.py`.  `fill_price` and `order_ok` feed
the inner `open_position_market` call when a re-entry order is placed. -/
def check_reentry (t : PositionTracker) (now : ℚ) (snap : Snapshot)
    (fill_price : ℚ) (order_ok : Bool) : PositionTracker × List Order :=
  if ¬ t.tradingview_active then (t, [])
  else if ¬ t.temporarily_closed then (t, [])
  else if 3 ≤ t.reentry_attempts then (t, [])
  else if now - t.last_trailing_action < 3 then (t, [])
  else if snap.price ≤ 0 then (t, [])
  else
    let pnl_vs_original :=
      if t.side = "long" then (snap.price - t.entry_price) / t.entry_price
      else (t.entry_price - snap.price) / t.entry_price
    let gain_from_close :=
      if t.side = "long" then (snap.price - t.reentry_price) / t.reentry_price
      else (t.reentry_price - snap.price) / t.reentry_price
    if REENTRY_THRESHOLD ≤ gain_from_close then
      let t1 := { t with reentry_attempts := t.reentry_attempts + 1 }
      let quantity := calculate_quantity snap.balance snap.price
      if 0 < quantity then
        let buy_side := if t.side = "long" then "buy" else "sell"
        let r := open_position_market t1 buy_side quantity fill_price order_ok now
        if r.2.1 then
          ({ r.1 with
              temporarily_closed := false
              peak_profit_percent := pnl_vs_original
              last_trailing_action := now }, r.2.2)
        else (r.1, r.2.2)
      else (t1, [])
    else (t, [])

/-- The trigger half of `check_trailing_profit()` (`src/main.py` lines
383-406): reads the already-raised peak from the tracker, no-ops below the
activation fraction, and otherwise closes the position once the retracement
from the peak reaches `TRAILING_PROFIT_DROP`. -/
def trailing_trigger (t1 : PositionTracker) (now : ℚ) (snap : Snapshot)
    (pnl_percent : ℚ) (close_ok : Bool) : PositionTracker × List Order :=
  let peak := t1.peak_profit_percent
  if peak < MIN_PROFIT_FOR_TRAILING then (t1, [])
  else
    let drop := peak - pnl_percent
    let drop_percent_of_peak := if 0 < peak then drop / peak else 0
    if TRAILING_PROFIT_DROP ≤ drop_percent_of_peak then
      if close_ok then
        ({ t1 with
            temporarily_closed := true
            reentry_price := snap.price
            reentry_attempts := 0
            last_trailing_action := now },
          [Order.closeOrder t1.side])
      else (t1, [Order.closeOrder t1.side])
    else (t1, [])

/-- `check_trailing_profit()` from `src/main.py`.  While the tracker is
temporarily closed it delegates to `check_reentry`; otherwise it raises the
profit peak if exceeded and hands over to `trailing_trigger` (the peak
update never changes `side`, so reading the close side from the updated
tracker matches the source). -/
def check_trailing_profit (t : PositionTracker) (now : ℚ) (snap : Snapshot)
    (fill_price : ℚ) (open_ok close_ok : Bool) : PositionTracker × List Order :=
  if ¬ t.tradingview_active then (t, [])
  else if t.side = "" ∨ t.size ≤ 0 then (t, [])
  else if t.temporarily_closed then check_reentry t now snap fill_price open_ok
  else if now - t.last_check < 1 / 2 then (t, [])
  else if now - t.last_trailing_action < 3 then (t, [])
  else if snap.price ≤ 0 then (t, [])
  else
    let pnl_percent :=
      if t.side = "long" then (snap.price - t.entry_price) / t.entry_price
      else (t.entry_price - snap.price) / t.entry_price
    let t1 :=
      if t.peak_profit_percent < pnl_percent then
        { t with peak_profit_percent := pnl_percent }
      else t
    trailing_trigger t1 now snap pnl_percent close_ok

/-- One `/health` tick: when the signal gate is active, run `check_stop_loss`
then `check_trailing_profit`, each with its own `time.time()` value and its
own freshly fetched market data. -/
def health_tick (t : PositionTracker) (now1 now2 : ℚ) (snap1 snap2 : Snapshot)
    (fill_price : ℚ) (open_ok cok1 cok2 : Bool) : PositionTracker × List Order :=
  if t.tradingview_active then
    let r1 := check_stop_loss t now1 snap1 cok1
    let r2 := check_trailing_profit r1.1 now2 snap2 fill_price open_ok cok2
    (r2.1, r1.2 ++ r2.2)
  else (t, [])

/-- The module-level mutable state relevant to the webhook handler: the
position tracker, the `last_webhook` dedup record, and the market-data
cache (time and data). -/
structure AppState where
  tracker : PositionTracker
  last_webhook_time : ℚ
  last_webhook_data : Option String
  cache : ℚ × Option Snapshot
deriving DecidableEq, Repr

/-- The state at module load. -/
def initial_state : AppState where
  tracker := initial_tracker
  last_webhook_time := 0
  last_webhook_data := none
  cache := (0, none)

/-- The three HTTP responses the webhook handler can return on the modelled
paths. -/
inductive WebhookResp
  | duplicate
  | ok
  | error
deriving DecidableEq, Repr

/-- The `/webhook` handler from `src/main.py`.  `data_str` is the canonical
JSON serialization of the payload, `market_position` the lower-cased stance
string, `snap` the freshly fetched market data after the forced cache
refresh, `fill_price` and `open_ok` feed any `open_position_market` call.
Close results on this path are ignored by the source, so they are not
modelled.  Returns the new state, the HTTP response, and the orders sent. -/
def webhook (w : AppState) (now : ℚ) (data_str : String)
    (market_position : String) (snap : Snapshot) (fill_price : ℚ)
    (open_ok : Bool) : AppState × WebhookResp × List Order :=
  if now - w.last_webhook_time < 2 ∧ w.last_webhook_data = some data_str then
    (w, .duplicate, [])
  else
    let t0 := { w.tracker with tv_position := market_position }
    let w1 := { w with
        tracker := t0
        last_webhook_time := now
        last_webhook_data := some data_str
        cache := (now, some snap) }
    if snap.balance ≤ 0 ∨ snap.price ≤ 0 then (w1, .error, [])
    else if market_position = "long" then
      let t1 := { t0 with tradingview_active := true }
      if 0 < snap.long_size then ({ w1 with tracker := t1 }, .ok, [])
      else
        let closes := if 0 < snap.short_size then [Order.closeOrder "short"] else []
        let quantity := calculate_quantity snap.balance snap.price
        if 0 < quantity then
          let r := open_position_market t1 "buy" quantity fill_price open_ok now
          ({ w1 with tracker := r.1 }, .ok, closes ++ r.2.2)
        else ({ w1 with tracker := t1 }, .ok, closes)
    else if market_position = "short" then
      let t1 := { t0 with tradingview_active := true }
      if 0 < snap.short_size then ({ w1 with tracker := t1 }, .ok, [])
      else
        let closes := if 0 < snap.long_size then [Order.closeOrder "long"] else []
        let quantity := calculate_quantity snap.balance snap.price
        if 0 < quantity then
          let r := open_position_market t1 "sell" quantity fill_price open_ok now
          ({ w1 with tracker := r.1 }, .ok, closes ++ r.2.2)
        else ({ w1 with tracker := t1 }, .ok, closes)
    else if market_position = "flat" then
      let closes :=
        (if 0 < snap.long_size then [Order.closeOrder "long"] else []) ++
        (if 0 < snap.short_size then [Order.closeOrder "short"] else [])
      let t1 := { t0 with
          tradingview_active := false
          side := ""
          size := 0
          temporarily_closed := false
          peak_profit_percent := 0 }
      ({ w1 with tracker := t1 }, .ok, closes)
    else (w1, .ok, [])

/-- One externally driven operation on the application state: an inbound
webhook or a `/health` tick. -/
inductive Op
  | sig (now : ℚ) (data : String) (mp : String) (snap : Snapshot)
      (fill : ℚ) (ook : Bool)
  | tick (now1 now2 : ℚ) (snap1 snap2 : Snapshot) (fill : ℚ)
      (ook cok1 cok2 : Bool)

/-- Apply one operation to the application state. -/
def step (w : AppState) : Op → AppState
  | .sig now data mp snap fill ook => (webhook w now data mp snap fill ook).1
  | .tick n1 n2 s1 s2 f ook c1 c2 =>
      { w with tracker := (health_tick w.tracker n1 n2 s1 s2 f ook c1 c2).1 }

/-- Apply a sequence of operations to the application state. -/
def run (w : AppState) : List Op → AppState
  | [] => w
  | op :: ops => run (step w op) ops

/-- The tracker fields written by the manual-close reconciliation branch of
`check_stop_loss` (side, size and the temporary-close flag reset to their
flat values, the check timestamp stamped). -/
def reconcile_flat (t : PositionTracker) (now : ℚ) : PositionTracker :=
  { t with
      last_check := now
      side := ""
      size := 0
      temporarily_closed := false }

/-- A concrete LOCKED long tracker: original entry at 1, closed by the
trailing lock at 0.99, no re-entry attempt yet, signal gate active. -/
def lockedTrackerA : PositionTracker where
  entry_price := 1
  side := "long"
  size := 3840
  stop_loss_price := 393 / 400
  last_check := 0
  peak_profit_percent := 1 / 100
  temporarily_closed := true
  reentry_price := 99 / 100
  reentry_attempts := 0
  last_trailing_action := 0
  tradingview_active := true
  tv_position := "long"

/-- A snapshot with balance 1000, price 1 and a flat venue. -/
def snapA : Snapshot where
  balance := 1000
  price := 1
  long_size := 0
  short_size := 0

/-- A concrete LOCKED long tracker used for the reconciliation scenario. -/
def lockedTrackerB : PositionTracker where
  entry_price := 1
  side := "long"
  size := 3840
  stop_loss_price := 393 / 400
  last_check := 0
  peak_profit_percent := 1 / 100
  temporarily_closed := true
  reentry_price := 99 / 100
  reentry_attempts := 1
  last_trailing_action := 0
  tradingview_active := true
  tv_position := "long"

/-- A snapshot with balance 1000, price 0.993 and a flat venue. -/
def snapB : Snapshot where
  balance := 1000
  price := 993 / 1000
  long_size := 0
  short_size := 0

/-- A concrete OPEN long tracker with peak profit 1% (trailing armed). -/
def openTrackerPeak : PositionTracker where
  entry_price := 1
  side := "long"
  size := 3840
  stop_loss_price := 393 / 400
  last_check := 0
  peak_profit_percent := 1 / 100
  temporarily_closed := false
  reentry_price := 0
  reentry_attempts := 0
  last_trailing_action := 0
  tradingview_active := true
  tv_position := "long"

/-- A snapshot at price 1.0075 (pnl 0.75% against entry 1), flat venue
balance 1000. -/
def snapRetrace : Snapshot where
  balance := 1000
  price := 403 / 400
  long_size := 0
  short_size := 0

/-- A concrete OPEN long tracker at entry 1 with stop price 0.9825. -/
def openTrackerStop : PositionTracker where
  entry_price := 1
  side := "long"
  size := 3840
  stop_loss_price := 393 / 400
  last_check := 0
  peak_profit_percent := 0
  temporarily_closed := false
  reentry_price := 0
  reentry_attempts := 0
  last_trailing_action := 0
  tradingview_active := true
  tv_position := "long"

/-- A snapshot at price 0.98 with the venue long 3840 (matches the tracked
side). -/
def snapStop : Snapshot where
  balance := 1000
  price := 49 / 50
  long_size := 3840
  short_size := 0

/-- A concrete application state holding an OPEN long position with stale
protection fields (re-entry attempts 1, stop and re-entry prices set). -/
def appStateOpenLong : AppState where
  tracker := {
    entry_price := 1
    side := "long"
    size := 3840
    stop_loss_price := 393 / 400
    last_check := 5
    peak_profit_percent := 1 / 100
    temporarily_closed := false
    reentry_price := 99 / 100
    reentry_attempts := 1
    last_trailing_action := 5
    tradingview_active := true
    tv_position := "long" }
  last_webhook_time := 0
  last_webhook_data := some "prev"
  cache := (5, none)

/-- A snapshot with the venue long 3840, short 0, balance 1000, price 1. -/
def snapLongHeld : Snapshot where
  balance := 1000
  price := 1
  long_size := 3840
  short_size := 0

/-- A concrete LOCKED long tracker that has exhausted its three re-entry
attempts. -/
def lockedTrackerMaxed : PositionTracker where
  entry_price := 1
  side := "long"
  size := 3840
  stop_loss_price := 393 / 400
  last_check := 0
  peak_profit_percent := 1 / 100
  temporarily_closed := true
  reentry_price := 99 / 100
  reentry_attempts := 3
  last_trailing_action := 0
  tradingview_active := true
  tv_position := "long"

end BotWlfi

namespace BotWlfi

/-- C4: for every tracker state with the external-signal gate off
(`tradingview_active = false`) and every market snapshot, each of the three
Risk Engine procedures returns the tracker unchanged and sends no order. -/
theorem C4_inactive_checks_frame (t : PositionTracker) (now : ℚ)
    (snap : Snapshot) (fill : ℚ) (ook cok : Bool)
    (h : t.tradingview_active = false) :
    check_stop_loss t now snap cok = (t, []) ∧
    check_trailing_profit t now snap fill ook cok = (t, []) ∧
    check_reentry t now snap fill ook = (t, []) := by
  refine ⟨?_, ?_, ?_⟩ <;>
    simp [check_stop_loss, check_trailing_profit, check_reentry, h]

/-- Witness for C4 at a concrete inactive state. -/
theorem C4_inactive_checks_frame_witness :
    check_stop_loss initial_tracker 1 ⟨100, 1, 0, 0⟩ true = (initial_tracker, []) ∧
    check_trailing_profit initial_tracker 1 ⟨100, 1, 0, 0⟩ 1 true true = (initial_tracker, []) ∧
    check_reentry initial_tracker 1 ⟨100, 1, 0, 0⟩ 1 true = (initial_tracker, []) :=
  C4_inactive_checks_frame initial_tracker 1 ⟨100, 1, 0, 0⟩ 1 true true rfl

/-- C9: a webhook payload whose canonical serialization equals the previously
accepted one and that arrives less than 2 seconds after it is answered with
the duplicate status, and the whole application state (tracker, dedup record,
cache) is returned unchanged with no order placed. -/
theorem C9_duplicate_webhook (w : AppState) (now : ℚ) (data mp : String)
    (snap : Snapshot) (fill : ℚ) (ook : Bool)
    (hrecent : now - w.last_webhook_time < 2)
    (hsame : w.last_webhook_data = some data) :
    webhook w now data mp snap fill ook = (w, .duplicate, []) := by
  simp [webhook, hrecent, hsame]

/-- Witness for C9 at a concrete repeated payload. -/
theorem C9_duplicate_webhook_witness :
    webhook { initial_state with last_webhook_time := 10, last_webhook_data := some "sig" }
        11 "sig" "long" ⟨100, 1, 0, 0⟩ 1 true =
      ({ initial_state with last_webhook_time := 10, last_webhook_data := some "sig" },
        .duplicate, []) :=
  C9_duplicate_webhook _ 11 "sig" "long" ⟨100, 1, 0, 0⟩ 1 true (by norm_num) rfl

/-- C10: after every successful market open at fill price E, the entry price
is E and the stop price is E·(1 − STOP_LOSS_PERCENT/LEVERAGE) when the order
side is "buy" (so the opened side is long) and E·(1 + STOP_LOSS_PERCENT/LEVERAGE)
otherwise; the leverage-adjusted delta STOP_LOSS_PERCENT/LEVERAGE equals
0.07/4 = 7/400. -/
theorem C10_stop_price (t : PositionTracker) (side : String)
    (size fill now : ℚ) (hsize : 0 < size) (hfill : 0 < fill) :
    (open_position_market t side size fill true now).1.entry_price = fill ∧
    (open_position_market t side size fill true now).1.stop_loss_price =
      (if side = "buy" then fill * (1 - STOP_LOSS_PERCENT / LEVERAGE)
       else fill * (1 + STOP_LOSS_PERCENT / LEVERAGE)) ∧
    STOP_LOSS_PERCENT / LEVERAGE = 7 / 400 := by
  refine ⟨?_, ?_, by norm_num [STOP_LOSS_PERCENT, LEVERAGE]⟩
  · simp [open_position_market, hsize.not_le, hfill.not_le]
  · by_cases hb : side = "buy" <;>
      simp [open_position_market, hsize.not_le, hfill.not_le, hb]

/-- Witness for C10 at a concrete long open. -/
theorem C10_stop_price_witness :
    (open_position_market initial_tracker "buy" 3840 1 true 5).1.entry_price = 1 ∧
    (open_position_market initial_tracker "buy" 3840 1 true 5).1.stop_loss_price =
      (if ("buy" : String) = "buy" then (1 : ℚ) * (1 - STOP_LOSS_PERCENT / LEVERAGE)
       else (1 : ℚ) * (1 + STOP_LOSS_PERCENT / LEVERAGE)) ∧
    STOP_LOSS_PERCENT / LEVERAGE = 7 / 400 :=
  C10_stop_price initial_tracker "buy" 3840 1 5 (by norm_num) (by norm_num)

end BotWlfi

namespace BotWlfi

/-- Evaluate `pyRound0` when the argument sits strictly below the midpoint of
its unit interval. -/
lemma pyRound0_eq_of_lt_half (x : ℚ) (n : ℤ) (h1 : (n : ℚ) ≤ x)
    (h2 : x - (n : ℚ) < 1 / 2) : pyRound0 x = (n : ℚ) := by
  have hf : Int.floor x = n := by
    rw [Int.floor_eq_iff]
    exact ⟨h1, by push_cast; linarith⟩
  simp only [pyRound0, hf]
  rw [if_pos h2]

/-- Evaluate `pyRound0` when the argument sits strictly above the midpoint of
its unit interval. -/
lemma pyRound0_eq_of_half_lt (x : ℚ) (n : ℤ) (h1 : 1 / 2 < x - (n : ℚ))
    (h2 : x < (n : ℚ) + 1) : pyRound0 x = ((n + 1 : ℤ) : ℚ) := by
  have hf : Int.floor x = n := by
    rw [Int.floor_eq_iff]
    exact ⟨by linarith, by push_cast; linarith⟩
  simp only [pyRound0, hf]
  rw [if_neg (by linarith), if_pos h1]

/-- Python's 0-digit round always lands within one half of its argument. -/
lemma pyRound0_near (x : ℚ) : |pyRound0 x - x| ≤ 1 / 2 := by
  have h0 : ((Int.floor x : ℤ) : ℚ) ≤ x := Int.floor_le x
  have h1 : x < ((Int.floor x : ℤ) : ℚ) + 1 := Int.lt_floor_add_one x
  simp only [pyRound0]
  split_ifs with hf hg he <;> rw [abs_le] <;> constructor <;> push_cast <;> linarith

/-- The quantity at the spec's sizing scenario: balance 1000, price 1. -/
lemma calc_quantity_1000_1 : calculate_quantity 1000 1 = 3840 := by
  have h : pyRound0 (1000 * POSITION_SIZE_PERCENT * LEVERAGE / 1) = ((3840 : ℤ) : ℚ) :=
    pyRound0_eq_of_lt_half _ 3840
      (by norm_num [POSITION_SIZE_PERCENT, LEVERAGE])
      (by norm_num [POSITION_SIZE_PERCENT, LEVERAGE])
  simp only [calculate_quantity]
  rw [if_neg (by norm_num [POSITION_SIZE_PERCENT, LEVERAGE, MIN_ORDER_VALUE])]
  rw [h]
  norm_num

/-- C7 counterexample: at balance 3/2 and price 1 the exposure is
5.76 ≥ MIN_ORDER_VALUE, floor(5.76/1) = 5, yet the sizing function returns 6
(Python `round`, nearest integer), so it does not return the floor. -/
theorem C7_floor_counterexample :
    MIN_ORDER_VALUE ≤ (3 / 2 : ℚ) * POSITION_SIZE_PERCENT * LEVERAGE ∧
    calculate_quantity (3 / 2) 1 = 6 ∧
    ((Int.floor (((3 / 2 : ℚ) * POSITION_SIZE_PERCENT * LEVERAGE) / 1) : ℤ) : ℚ) = 5 ∧
    calculate_quantity (3 / 2) 1 ≠
      ((Int.floor (((3 / 2 : ℚ) * POSITION_SIZE_PERCENT * LEVERAGE) / 1) : ℤ) : ℚ) := by
  have hq : calculate_quantity (3 / 2) 1 = 6 := by
    have h : pyRound0 (3 / 2 * POSITION_SIZE_PERCENT * LEVERAGE / 1) = ((5 + 1 : ℤ) : ℚ) :=
      pyRound0_eq_of_half_lt _ 5
        (by norm_num [POSITION_SIZE_PERCENT, LEVERAGE])
        (by norm_num [POSITION_SIZE_PERCENT, LEVERAGE])
    simp only [calculate_quantity]
    rw [if_neg (by norm_num [POSITION_SIZE_PERCENT, LEVERAGE, MIN_ORDER_VALUE])]
    rw [h]
    norm_num
  have hfl : Int.floor (((3 / 2 : ℚ) * POSITION_SIZE_PERCENT * LEVERAGE) / 1) = (5 : ℤ) := by
    rw [Int.floor_eq_iff] <;> norm_num [POSITION_SIZE_PERCENT, LEVERAGE]
  refine ⟨by norm_num [MIN_ORDER_VALUE, POSITION_SIZE_PERCENT, LEVERAGE], hq, ?_, ?_⟩
  · rw [hfl]; norm_num
  · rw [hq, hfl]; norm_num

/-- C7 (amended): the shared sizing function returns 0 when the exposure
`balance × 0.96 × 4` is below the minimum order value 5, and otherwise
returns exposure/price rounded to the nearest integer with ties to even
(Python `round`, always within 1/2 of exposure/price), not its floor; for
balance = 1000 and price = 1 it returns 3840. -/
theorem C7_quantity_sizing (balance price : ℚ) :
    (balance * POSITION_SIZE_PERCENT * LEVERAGE < MIN_ORDER_VALUE →
      calculate_quantity balance price = 0) ∧
    (MIN_ORDER_VALUE ≤ balance * POSITION_SIZE_PERCENT * LEVERAGE →
      calculate_quantity balance price =
        pyRound0 (balance * POSITION_SIZE_PERCENT * LEVERAGE / price) ∧
      |calculate_quantity balance price -
        balance * POSITION_SIZE_PERCENT * LEVERAGE / price| ≤ 1 / 2) ∧
    calculate_quantity 1000 1 = 3840 := by
  refine ⟨?_, ?_, calc_quantity_1000_1⟩
  · intro h
    simp only [calculate_quantity]
    rw [if_pos h]
  · intro h
    have hq : calculate_quantity balance price =
        pyRound0 (balance * POSITION_SIZE_PERCENT * LEVERAGE / price) := by
      simp only [calculate_quantity]
      rw [if_neg h.not_lt]
    refine ⟨hq, ?_⟩
    rw [hq]
    exact pyRound0_near _

/-- Witness for C7's amended theorem at the spec's own scenario. -/
theorem C7_quantity_sizing_witness :
    calculate_quantity 1000 1 =
      pyRound0 ((1000 : ℚ) * POSITION_SIZE_PERCENT * LEVERAGE / 1) ∧
    calculate_quantity 1000 1 = 3840 :=
  ⟨((C7_quantity_sizing 1000 1).2.1
      (by norm_num [MIN_ORDER_VALUE, POSITION_SIZE_PERCENT, LEVERAGE])).1,
    (C7_quantity_sizing 1000 1).2.2⟩

end BotWlfi

namespace BotWlfi

/-- C2: in the LOCKED phase (temporarily closed with retained side and
positive size), with the signal gate active, the 0.5s throttle elapsed, a
positive price and a zero venue size on the tracked side, `check_stop_loss`
takes the manual-close reconciliation branch: it resets side, size and the
temporary-close flag to their flat values and sends no order; on the
resulting tracker both `check_reentry` and `check_trailing_profit` (which
hosts the re-entry delegation) are no-ops for every later input, so
automatic re-entry cannot fire on a health tick whose stop-loss check ran
while LOCKED. -/
theorem C2_locked_reconciliation (t : PositionTracker) (now : ℚ)
    (snap : Snapshot) (cok : Bool)
    (hact : t.tradingview_active = true) (hlock : t.temporarily_closed = true)
    (hside : ¬ t.side = "") (hsize : 0 < t.size)
    (hthr : ¬ (now - t.last_check < 1 / 2)) (hp : 0 < snap.price)
    (hzero : (if t.side = "long" then snap.long_size else snap.short_size) = 0) :
    check_stop_loss t now snap cok = (reconcile_flat t now, []) ∧
    (∀ (now2 : ℚ) (snap2 : Snapshot) (fill : ℚ) (ook : Bool),
      check_reentry (reconcile_flat t now) now2 snap2 fill ook =
        (reconcile_flat t now, [])) ∧
    (∀ (now2 : ℚ) (snap2 : Snapshot) (fill : ℚ) (ook cok2 : Bool),
      check_trailing_profit (reconcile_flat t now) now2 snap2 fill ook cok2 =
        (reconcile_flat t now, [])) := by
  have hthr2 : ¬ (now - t.last_check < 2⁻¹) := by simpa using hthr
  refine ⟨?_, ?_, ?_⟩
  · simp [check_stop_loss, reconcile_flat, hact, hside, hsize, hsize.not_le,
      hthr2, hp.not_le, hzero]
  · intro now2 snap2 fill ook
    simp [check_reentry, reconcile_flat]
  · intro now2 snap2 fill ook cok2
    simp [check_trailing_profit, reconcile_flat]

/-- Witness for C2: a LOCKED long tracker against a venue holding no long
position is reconciled to flat, and the re-entry check is then a no-op. -/
theorem C2_locked_reconciliation_witness :
    check_stop_loss lockedTrackerB 10 snapB true = (reconcile_flat lockedTrackerB 10, []) ∧
    check_reentry (reconcile_flat lockedTrackerB 10) 20 snapB (993 / 1000) true =
      (reconcile_flat lockedTrackerB 10, []) := by
  have h := C2_locked_reconciliation lockedTrackerB 10 snapB true rfl rfl
    (by decide) (by norm_num [lockedTrackerB]) (by norm_num [lockedTrackerB])
    (by norm_num [snapB]) (by simp [lockedTrackerB, snapB])
  exact ⟨h.1, h.2.1 20 snapB (993 / 1000) true⟩

end BotWlfi

namespace BotWlfi

/-- C6: with the gate active, a tracked long/short of positive size, a
matching non-zero venue size, the throttle elapsed and a positive price, the
stop-loss check sends a close order for the tracked side exactly when
(long and price ≤ stop) or (short and stop ≤ price); on trigger with a
successful close the tracker goes flat (side cleared, size 0) with the
signal gate left untouched, and without trigger only the check timestamp is
stamped. -/
theorem C6_stop_loss_trigger (t : PositionTracker) (now : ℚ)
    (snap : Snapshot) (cok : Bool)
    (hact : t.tradingview_active = true)
    (hside : t.side = "long" ∨ t.side = "short")
    (hsize : 0 < t.size)
    (hmatch : ¬ (if t.side = "long" then snap.long_size else snap.short_size) = 0)
    (hthr : ¬ (now - t.last_check < 1 / 2)) (hp : 0 < snap.price) :
    ((check_stop_loss t now snap cok).2 = [Order.closeOrder t.side] ↔
      ((t.side = "long" ∧ snap.price ≤ t.stop_loss_price) ∨
        (t.side = "short" ∧ t.stop_loss_price ≤ snap.price))) ∧
    (((t.side = "long" ∧ snap.price ≤ t.stop_loss_price) ∨
        (t.side = "short" ∧ t.stop_loss_price ≤ snap.price)) →
      check_stop_loss t now snap true =
        ({ t with
            last_check := now
            side := ""
            size := 0
            temporarily_closed := false }, [Order.closeOrder t.side])) ∧
    (¬ ((t.side = "long" ∧ snap.price ≤ t.stop_loss_price) ∨
        (t.side = "short" ∧ t.stop_loss_price ≤ snap.price)) →
      check_stop_loss t now snap cok = ({ t with last_check := now }, [])) := by
  have hthr2 : ¬ (now - t.last_check < 2⁻¹) := by simpa using hthr
  rcases hside with hs | hs
  · rw [hs] at hmatch
    simp only [if_true] at hmatch
    by_cases hc : snap.price ≤ t.stop_loss_price
    · have he : ∀ c : Bool, check_stop_loss t now snap c =
          (if c then
            ({ t with
                last_check := now
                side := ""
                size := 0
                temporarily_closed := false }) else { t with last_check := now },
            [Order.closeOrder t.side]) := by
        intro c
        cases c <;>
          simp [check_stop_loss, hact, hs, hsize, hsize.not_le, hthr2, hp.not_le,
            hmatch, hc]
      refine ⟨?_, fun _ => ?_, fun hn => absurd (Or.inl ⟨hs, hc⟩) hn⟩
      · rw [he cok]
        cases cok <;> simp [hs, hc]
      · rw [he true]
        simp
    · have he : check_stop_loss t now snap cok = ({ t with last_check := now }, []) := by
        simp [check_stop_loss, hact, hs, hsize, hsize.not_le, hthr2, hp.not_le,
          hmatch, hc]
      refine ⟨?_, fun h => ?_, fun _ => he⟩
      · rw [he]
        constructor
        · intro hcontra
          exact absurd hcontra (by simp)
        · rintro (⟨_, h2⟩ | ⟨h1, _⟩)
          · exact absurd h2 hc
          · exact absurd (hs ▸ h1) (by decide)
      · rcases h with ⟨_, h2⟩ | ⟨h1, _⟩
        · exact absurd h2 hc
        · exact absurd (hs ▸ h1) (by decide)
  · rw [hs] at hmatch
    rw [if_neg (by decide)] at hmatch
    by_cases hc : t.stop_loss_price ≤ snap.price
    · have he : ∀ c : Bool, check_stop_loss t now snap c =
          (if c then
            ({ t with
                last_check := now
                side := ""
                size := 0
                temporarily_closed := false }) else { t with last_check := now },
            [Order.closeOrder t.side]) := by
        intro c
        cases c <;>
          simp [check_stop_loss, hact, hs, hsize, hsize.not_le, hthr2, hp.not_le,
            hmatch, hc, ge_iff_le]
      refine ⟨?_, fun _ => ?_, fun hn => absurd (Or.inr ⟨hs, hc⟩) hn⟩
      · rw [he cok]
        cases cok <;> simp [hs, hc]
      · rw [he true]
        simp
    · have he : check_stop_loss t now snap cok = ({ t with last_check := now }, []) := by
        simp [check_stop_loss, hact, hs, hsize, hsize.not_le, hthr2, hp.not_le,
          hmatch, hc, ge_iff_le]
      refine ⟨?_, fun h => ?_, fun _ => he⟩
      · rw [he]
        constructor
        · intro hcontra
          exact absurd hcontra (by simp)
        · rintro (⟨h1, _⟩ | ⟨_, h2⟩)
          · exact absurd (hs ▸ h1) (by decide)
          · exact absurd h2 hc
      · rcases h with ⟨h1, _⟩ | ⟨_, h2⟩
        · exact absurd (hs ▸ h1) (by decide)
        · exact absurd h2 hc

end BotWlfi

namespace BotWlfi

/-- Witness for C6 at the spec's stop scenario: long at entry 1 with stop
0.9825, price 0.98 triggers the stop and the tracker goes flat. -/
theorem C6_stop_loss_trigger_witness :
    ((check_stop_loss openTrackerStop 10 snapStop true).2 =
      [Order.closeOrder openTrackerStop.side] ↔
      ((openTrackerStop.side = "long" ∧
          snapStop.price ≤ openTrackerStop.stop_loss_price) ∨
        (openTrackerStop.side = "short" ∧
          openTrackerStop.stop_loss_price ≤ snapStop.price))) ∧
    check_stop_loss openTrackerStop 10 snapStop true =
      ({ openTrackerStop with
          last_check := 10
          side := ""
          size := 0
          temporarily_closed := false }, [Order.closeOrder openTrackerStop.side]) := by
  have h := C6_stop_loss_trigger openTrackerStop 10 snapStop true rfl (Or.inl rfl)
    (by norm_num [openTrackerStop]) (by norm_num [openTrackerStop, snapStop])
    (by norm_num [openTrackerStop]) (by norm_num [snapStop])
  exact ⟨h.1, h.2.1 (Or.inl ⟨rfl, by norm_num [openTrackerStop, snapStop]⟩)⟩

end BotWlfi

namespace BotWlfi

/-- C5: in the OPEN phase with the gate active, a tracked long/short of
positive size, throttle and 3s action cooldown elapsed and a positive price,
whenever the recorded profit peak has reached the 0.008 activation fraction
and the retracement (peak − pnl)/peak is at least 0.25, the trailing check
closes the position and, on close success, transitions OPEN→LOCKED: the
temporary-close flag is set, `reentry_price` is set to the current price,
`reentry_attempts` is reset to 0 and the protective-action timestamp is
stamped. -/
theorem C5_trailing_trigger (t : PositionTracker) (now : ℚ) (snap : Snapshot)
    (fill : ℚ) (ook : Bool)
    (hact : t.tradingview_active = true)
    (hside : t.side = "long" ∨ t.side = "short")
    (hsize : 0 < t.size) (hopen : t.temporarily_closed = false)
    (hthr : ¬ (now - t.last_check < 1 / 2))
    (hcool : ¬ (now - t.last_trailing_action < 3))
    (hp : 0 < snap.price)
    (hpeak : MIN_PROFIT_FOR_TRAILING ≤ t.peak_profit_percent)
    (hdraw : TRAILING_PROFIT_DROP ≤
      (t.peak_profit_percent -
        (if t.side = "long" then (snap.price - t.entry_price) / t.entry_price
         else (t.entry_price - snap.price) / t.entry_price)) /
        t.peak_profit_percent) :
    check_trailing_profit t now snap fill ook true =
      ({ t with
          temporarily_closed := true
          reentry_price := snap.price
          reentry_attempts := 0
          last_trailing_action := now }, [Order.closeOrder t.side]) := by
  have hthr2 : ¬ (now - t.last_check < 2⁻¹) := by simpa using hthr
  have hpos : 0 < t.peak_profit_percent :=
    lt_of_lt_of_le (by norm_num [MIN_PROFIT_FOR_TRAILING]) hpeak
  rcases hside with hs | hs
  · rw [hs, if_pos rfl] at hdraw
    have hdraw2 := hdraw
    rw [le_div_iff hpos] at hdraw2
    norm_num [TRAILING_PROFIT_DROP] at hdraw2
    have hnp : ¬ (t.peak_profit_percent <
        (snap.price - t.entry_price) / t.entry_price) := by
      intro hcon
      linarith
    simp [check_trailing_profit, trailing_trigger, hact, hs, hsize, hsize.not_le,
      hopen, hthr2, hcool, hp.not_le, hnp, hpeak.not_lt, hpos, hdraw]
  · rw [hs, if_neg (by decide)] at hdraw
    have hdraw2 := hdraw
    rw [le_div_iff hpos] at hdraw2
    norm_num [TRAILING_PROFIT_DROP] at hdraw2
    have hnp : ¬ (t.peak_profit_percent <
        (t.entry_price - snap.price) / t.entry_price) := by
      intro hcon
      linarith
    simp [check_trailing_profit, trailing_trigger, hact, hs, hsize, hsize.not_le,
      hopen, hthr2, hcool, hp.not_le, hnp, hpeak.not_lt, hpos, hdraw]

/-- Witness for C5 at the spec's scenario: long at entry 1, peak 1%, price
retraced to 1.0075 (pnl 0.75%), drawdown exactly 25% — trailing fires and
locks the position. -/
theorem C5_trailing_trigger_witness :
    check_trailing_profit openTrackerPeak 10 snapRetrace 1 true true =
      ({ openTrackerPeak with
          temporarily_closed := true
          reentry_price := 403 / 400
          reentry_attempts := 0
          last_trailing_action := 10 }, [Order.closeOrder "long"]) :=
  C5_trailing_trigger openTrackerPeak 10 snapRetrace 1 true rfl (Or.inl rfl)
    (by norm_num [openTrackerPeak]) rfl (by norm_num [openTrackerPeak])
    (by norm_num [openTrackerPeak]) (by norm_num [snapRetrace])
    (by norm_num [openTrackerPeak, MIN_PROFIT_FOR_TRAILING])
    (by norm_num [openTrackerPeak, snapRetrace, TRAILING_PROFIT_DROP])

end BotWlfi

namespace BotWlfi

/-- C1 counterexample: from a LOCKED long state with 0 prior re-entry
attempts, a price recovered above the re-entry threshold and a successful
order, `check_reentry` does place the re-entry order and unlocks the
position (LOCKED→OPEN), but the final `reentry_attempts` is 0 — not the
claimed old value + 1 — because `open_position_market` resets the counter on
success after `check_reentry` incremented it. -/
theorem C1_attempts_counterexample :
    (check_reentry lockedTrackerA 10 snapA 1 true).2 =
      [Order.openOrder "buy" 3840] ∧
    (check_reentry lockedTrackerA 10 snapA 1 true).1.temporarily_closed = false ∧
    lockedTrackerA.reentry_attempts = 0 ∧
    (check_reentry lockedTrackerA 10 snapA 1 true).1.reentry_attempts = 0 ∧
    ¬ ((check_reentry lockedTrackerA 10 snapA 1 true).1.reentry_attempts =
        lockedTrackerA.reentry_attempts + 1) := by
  have he : check_reentry lockedTrackerA 10 snapA 1 true =
      ({ entry_price := 1
         side := "long"
         size := 3840
         stop_loss_price := 393 / 400
         last_check := 0
         peak_profit_percent := 0
         temporarily_closed := false
         reentry_price := 99 / 100
         reentry_attempts := 0
         last_trailing_action := 10
         tradingview_active := true
         tv_position := "long" }, [Order.openOrder "buy" 3840]) := by
    norm_num [check_reentry, open_position_market, lockedTrackerA, snapA,
      calc_quantity_1000_1, REENTRY_THRESHOLD, STOP_LOSS_PERCENT, LEVERAGE]
  rw [he]
  refine ⟨rfl, rfl, rfl, rfl, by norm_num [lockedTrackerA]⟩

/-- C1 (amended): for every successful re-entry — LOCKED phase with the gate
active, fewer than 3 attempts, the 3s cooldown elapsed, a positive price
whose gain from `reentry_price` meets the 0.003 threshold, a positive
computed quantity, a positive fill and a successful order — `check_reentry`
transitions LOCKED→OPEN and sets `peak_profit_percent` to the unleveraged
profit of the snapshot price versus the original entry price (not the
re-entry price); `reentry_attempts`, however, ends at 0: the increment made
before placing the order is overwritten by `open_position_market`'s tracker
reset on success. -/
theorem C1_reentry_success (t : PositionTracker) (now : ℚ) (snap : Snapshot)
    (fill : ℚ)
    (hact : t.tradingview_active = true) (hlock : t.temporarily_closed = true)
    (hatt : t.reentry_attempts < 3)
    (hcool : ¬ (now - t.last_trailing_action < 3))
    (hp : 0 < snap.price)
    (hside : t.side = "long" ∨ t.side = "short")
    (hent : 0 < t.entry_price) (hre : 0 < t.reentry_price)
    (hgain : REENTRY_THRESHOLD ≤
      (if t.side = "long" then (snap.price - t.reentry_price) / t.reentry_price
       else (t.reentry_price - snap.price) / t.reentry_price))
    (hq : 0 < calculate_quantity snap.balance snap.price)
    (hfill : 0 < fill) :
    check_reentry t now snap fill true =
      ({ t with
          entry_price := fill
          size := calculate_quantity snap.balance snap.price
          temporarily_closed := false
          reentry_attempts := 0
          last_trailing_action := now
          stop_loss_price :=
            if t.side = "long" then fill * (1 - STOP_LOSS_PERCENT / LEVERAGE)
            else fill * (1 + STOP_LOSS_PERCENT / LEVERAGE)
          peak_profit_percent :=
            if t.side = "long" then (snap.price - t.entry_price) / t.entry_price
            else (t.entry_price - snap.price) / t.entry_price },
        [Order.openOrder (if t.side = "long" then "buy" else "sell")
          (calculate_quantity snap.balance snap.price)]) := by
  rcases hside with hs | hs
  · rw [hs, if_pos rfl] at hgain
    simp [check_reentry, open_position_market, hact, hlock, not_le.mpr hatt,
      hcool, hp.not_le, hs, hgain, hq, hq.not_le, hfill.not_le]
  · rw [hs, if_neg (by decide)] at hgain
    simp [check_reentry, open_position_market, hact, hlock, not_le.mpr hatt,
      hcool, hp.not_le, hs, hgain, hq, hq.not_le, hfill.not_le]

/-- Witness for C1's amended theorem: the LOCKED long state re-enters at
fill 1 with quantity 3840 and ends OPEN with 0 attempts. -/
theorem C1_reentry_success_witness :
    check_reentry lockedTrackerA 10 snapA 1 true =
      ({ lockedTrackerA with
          entry_price := 1
          size := calculate_quantity snapA.balance snapA.price
          temporarily_closed := false
          reentry_attempts := 0
          last_trailing_action := 10
          stop_loss_price :=
            if lockedTrackerA.side = "long" then (1 : ℚ) * (1 - STOP_LOSS_PERCENT / LEVERAGE)
            else (1 : ℚ) * (1 + STOP_LOSS_PERCENT / LEVERAGE)
          peak_profit_percent :=
            if lockedTrackerA.side = "long" then
              (snapA.price - lockedTrackerA.entry_price) / lockedTrackerA.entry_price
            else (lockedTrackerA.entry_price - snapA.price) / lockedTrackerA.entry_price },
        [Order.openOrder (if lockedTrackerA.side = "long" then "buy" else "sell")
          (calculate_quantity snapA.balance snapA.price)]) :=
  C1_reentry_success lockedTrackerA 10 snapA 1 rfl rfl (by norm_num [lockedTrackerA])
    (by norm_num [lockedTrackerA]) (by norm_num [snapA]) (Or.inl rfl)
    (by norm_num [lockedTrackerA]) (by norm_num [lockedTrackerA])
    (by norm_num [lockedTrackerA, snapA, REENTRY_THRESHOLD])
    (by rw [show snapA.balance = 1000 from rfl, show snapA.price = 1 from rfl,
      calc_quantity_1000_1]; norm_num)
    (by norm_num)

end BotWlfi

namespace BotWlfi

/-- C3 counterexample: a flat webhook over an OPEN long with stale protection
fields succeeds (status ok) and flattens the tracker, but it does not clear
all protection fields: `stop_loss_price` stays 393/400 and
`reentry_attempts` stays 1 — neither is reset to its flat value. -/
theorem C3_flat_counterexample :
    (webhook appStateOpenLong 10 "go-flat" "flat" snapLongHeld 1 true).2.1 =
      WebhookResp.ok ∧
    (webhook appStateOpenLong 10 "go-flat" "flat" snapLongHeld 1 true).1.tracker.tradingview_active
      = false ∧
    (webhook appStateOpenLong 10 "go-flat" "flat" snapLongHeld 1 true).1.tracker.side = "" ∧
    (webhook appStateOpenLong 10 "go-flat" "flat" snapLongHeld 1 true).1.tracker.stop_loss_price
      = 393 / 400 ∧
    (webhook appStateOpenLong 10 "go-flat" "flat" snapLongHeld 1 true).1.tracker.reentry_attempts
      = 1 ∧
    ¬ ((webhook appStateOpenLong 10 "go-flat" "flat" snapLongHeld 1 true).1.tracker.stop_loss_price
      = 0) ∧
    ¬ ((webhook appStateOpenLong 10 "go-flat" "flat" snapLongHeld 1 true).1.tracker.reentry_attempts
      = 0) := by
  simp [webhook, appStateOpenLong, snapLongHeld]
  norm_num

/-- C3 (amended): a deduplicated flat webhook with valid market data closes
any live venue size on both sides, sets `tradingview_active` to false and
resets side, size, the temporary-close flag and the profit peak;
`stop_loss_price`, `reentry_price` and `reentry_attempts` retain their stale
values (harmless, since the gate is off); afterwards every health tick is a
no-op until the next directional signal. -/
theorem C3_flat_signal (w : AppState) (now : ℚ) (data : String)
    (snap : Snapshot) (fill : ℚ) (ook : Bool)
    (hdup : ¬ (now - w.last_webhook_time < 2 ∧ w.last_webhook_data = some data))
    (hbal : 0 < snap.balance) (hp : 0 < snap.price) :
    webhook w now data "flat" snap fill ook =
      ({ w with
          tracker := { w.tracker with
            tv_position := "flat"
            tradingview_active := false
            side := ""
            size := 0
            temporarily_closed := false
            peak_profit_percent := 0 }
          last_webhook_time := now
          last_webhook_data := some data
          cache := (now, some snap) },
        WebhookResp.ok,
        (if 0 < snap.long_size then [Order.closeOrder "long"] else []) ++
        (if 0 < snap.short_size then [Order.closeOrder "short"] else [])) ∧
    (∀ (n1 n2 : ℚ) (s1 s2 : Snapshot) (f : ℚ) (ook2 c1 c2 : Bool),
      health_tick
          { w.tracker with
            tv_position := "flat"
            tradingview_active := false
            side := ""
            size := 0
            temporarily_closed := false
            peak_profit_percent := 0 } n1 n2 s1 s2 f ook2 c1 c2 =
        ({ w.tracker with
            tv_position := "flat"
            tradingview_active := false
            side := ""
            size := 0
            temporarily_closed := false
            peak_profit_percent := 0 }, [])) := by
  constructor
  · simp [webhook, hdup, hbal.not_le, hp.not_le]
  · intro n1 n2 s1 s2 f ook2 c1 c2
    simp [health_tick]

/-- Witness for C3's amended theorem: the flat signal over the OPEN long
state closes the held long and deactivates the gate. -/
theorem C3_flat_signal_witness :
    webhook appStateOpenLong 10 "go-flat" "flat" snapLongHeld 1 true =
      ({ appStateOpenLong with
          tracker := { appStateOpenLong.tracker with
            tv_position := "flat"
            tradingview_active := false
            side := ""
            size := 0
            temporarily_closed := false
            peak_profit_percent := 0 }
          last_webhook_time := 10
          last_webhook_data := some "go-flat"
          cache := (10, some snapLongHeld) },
        WebhookResp.ok,
        (if 0 < snapLongHeld.long_size then [Order.closeOrder "long"] else []) ++
        (if 0 < snapLongHeld.short_size then [Order.closeOrder "short"] else [])) ∧
    health_tick
        { appStateOpenLong.tracker with
          tv_position := "flat"
          tradingview_active := false
          side := ""
          size := 0
          temporarily_closed := false
          peak_profit_percent := 0 } 11 12 snapLongHeld snapLongHeld 1 true true true =
      ({ appStateOpenLong.tracker with
          tv_position := "flat"
          tradingview_active := false
          side := ""
          size := 0
          temporarily_closed := false
          peak_profit_percent := 0 }, []) := by
  have h := C3_flat_signal appStateOpenLong 10 "go-flat" snapLongHeld 1 true
    (by norm_num [appStateOpenLong]) (by norm_num [snapLongHeld])
    (by norm_num [snapLongHeld])
  exact ⟨h.1, h.2 11 12 snapLongHeld snapLongHeld 1 true true true⟩

end BotWlfi

namespace BotWlfi

/-- `open_position_market` keeps the attempt counter within the cap: on
success it resets it to 0, otherwise the tracker is untouched. -/
lemma open_position_market_attempts_le (t : PositionTracker) (s : String)
    (z f now : ℚ) (ok : Bool) (h : t.reentry_attempts ≤ 3) :
    (open_position_market t s z f ok now).1.reentry_attempts ≤ 3 := by
  simp only [open_position_market]
  split_ifs <;> simp [h]

/-- `check_reentry` with the attempt cap reached is a complete no-op. -/
lemma check_reentry_maxed (t : PositionTracker) (now : ℚ) (snap : Snapshot)
    (fill : ℚ) (ook : Bool) (h : 3 ≤ t.reentry_attempts) :
    check_reentry t now snap fill ook = (t, []) := by
  simp only [check_reentry]
  split_ifs <;> first | rfl | (exfalso; omega)

/-- `check_stop_loss` never changes the attempt counter. -/
lemma check_stop_loss_attempts (t : PositionTracker) (now : ℚ) (snap : Snapshot)
    (cok : Bool) :
    (check_stop_loss t now snap cok).1.reentry_attempts = t.reentry_attempts := by
  simp only [check_stop_loss]
  split_ifs <;> rfl

/-- `check_stop_loss` sends no open order. -/
lemma check_stop_loss_no_open (t : PositionTracker) (now : ℚ) (snap : Snapshot)
    (cok : Bool) :
    ∀ o ∈ (check_stop_loss t now snap cok).2, o.is_open_order = false := by
  simp only [check_stop_loss]
  split_ifs <;> simp [Order.is_open_order]

set_option maxHeartbeats 1600000 in
/-- `check_reentry` keeps the attempt counter within the cap. -/
lemma check_reentry_attempts_le (t : PositionTracker) (now : ℚ) (snap : Snapshot)
    (fill : ℚ) (ook : Bool) (h : t.reentry_attempts ≤ 3) :
    (check_reentry t now snap fill ook).1.reentry_attempts ≤ 3 := by
  simp only [check_reentry]
  split_ifs <;>
    first
      | exact h
      | (show t.reentry_attempts + 1 ≤ 3 ; omega)
      | exact open_position_market_attempts_le _ _ _ _ _ _
          (by show t.reentry_attempts + 1 ≤ 3 ; omega)

/-- `trailing_trigger` keeps the attempt counter within the cap. -/
lemma trailing_trigger_attempts_le (t1 : PositionTracker) (now : ℚ)
    (snap : Snapshot) (pnl : ℚ) (cok : Bool) (h : t1.reentry_attempts ≤ 3) :
    (trailing_trigger t1 now snap pnl cok).1.reentry_attempts ≤ 3 := by
  simp only [trailing_trigger]
  split_ifs <;> first | exact h | exact Nat.zero_le 3

/-- `trailing_trigger` sends no open order. -/
lemma trailing_trigger_no_open (t1 : PositionTracker) (now : ℚ)
    (snap : Snapshot) (pnl : ℚ) (cok : Bool) :
    ∀ o ∈ (trailing_trigger t1 now snap pnl cok).2, o.is_open_order = false := by
  simp only [trailing_trigger]
  split_ifs <;>
    first
      | (intro o ho; simp at ho; done)
      | (intro o ho; simp at ho; rw [ho]; rfl)

set_option maxHeartbeats 1600000 in
/-- `check_trailing_profit` keeps the attempt counter within the cap. -/
lemma check_trailing_attempts_le (t : PositionTracker) (now : ℚ) (snap : Snapshot)
    (fill : ℚ) (ook cok : Bool) (h : t.reentry_attempts ≤ 3) :
    (check_trailing_profit t now snap fill ook cok).1.reentry_attempts ≤ 3 := by
  simp only [check_trailing_profit]
  split_ifs <;>
    first
      | exact h
      | exact check_reentry_attempts_le _ _ _ _ _ h
      | exact trailing_trigger_attempts_le _ _ _ _ _ h

set_option maxHeartbeats 1600000 in
/-- With the attempt cap reached, `check_trailing_profit` sends no open
order. -/
lemma check_trailing_no_open (t : PositionTracker) (now : ℚ) (snap : Snapshot)
    (fill : ℚ) (ook cok : Bool) (h : 3 ≤ t.reentry_attempts) :
    ∀ o ∈ (check_trailing_profit t now snap fill ook cok).2,
      o.is_open_order = false := by
  simp only [check_trailing_profit]
  split_ifs <;>
    first
      | (intro o ho; simp at ho; done)
      | (rw [check_reentry_maxed _ _ _ _ _ h]; intro o ho; simp at ho; done)
      | exact trailing_trigger_no_open _ _ _ _ _

/-- With the attempt cap reached, a whole health tick sends no open order. -/
lemma health_tick_no_open (t : PositionTracker) (n1 n2 : ℚ) (s1 s2 : Snapshot)
    (f : ℚ) (ook c1 c2 : Bool) (h : 3 ≤ t.reentry_attempts) :
    ∀ o ∈ (health_tick t n1 n2 s1 s2 f ook c1 c2).2, o.is_open_order = false := by
  simp only [health_tick]
  split_ifs
  · intro o ho
    rcases List.mem_append.mp ho with h1 | h2
    · exact check_stop_loss_no_open _ _ _ _ o h1
    · refine check_trailing_no_open _ _ _ _ _ _ ?_ o h2
      rw [check_stop_loss_attempts]
      exact h
  · simp

/-- A health tick keeps the attempt counter within the cap. -/
lemma health_tick_attempts_le (t : PositionTracker) (n1 n2 : ℚ)
    (s1 s2 : Snapshot) (f : ℚ) (ook c1 c2 : Bool)
    (h : t.reentry_attempts ≤ 3) :
    (health_tick t n1 n2 s1 s2 f ook c1 c2).1.reentry_attempts ≤ 3 := by
  simp only [health_tick]
  split_ifs
  · exact check_trailing_attempts_le _ _ _ _ _ _
      (by rw [check_stop_loss_attempts]; exact h)
  · simpa using h

/-- The webhook handler keeps the attempt counter within the cap. -/
lemma webhook_attempts_le (w : AppState) (now : ℚ) (data mp : String)
    (snap : Snapshot) (fill : ℚ) (ook : Bool)
    (h : w.tracker.reentry_attempts ≤ 3) :
    (webhook w now data mp snap fill ook).1.tracker.reentry_attempts ≤ 3 := by
  simp only [webhook]
  split_ifs <;>
    first
      | simpa using h
      | exact open_position_market_attempts_le _ _ _ _ _ _ (by simpa using h)

/-- One operation keeps the attempt counter within the cap. -/
lemma step_attempts_le (w : AppState) (op : Op)
    (h : w.tracker.reentry_attempts ≤ 3) :
    (step w op).tracker.reentry_attempts ≤ 3 := by
  cases op with
  | sig now data mp snap fill ook => exact webhook_attempts_le _ _ _ _ _ _ _ h
  | tick n1 n2 s1 s2 f ook c1 c2 =>
      simp only [step]
      exact health_tick_attempts_le _ _ _ _ _ _ _ _ _ h

/-- Any operation sequence keeps the attempt counter within the cap. -/
lemma run_attempts_le (ops : List Op) :
    ∀ w : AppState, w.tracker.reentry_attempts ≤ 3 →
      (run w ops).tracker.reentry_attempts ≤ 3 := by
  induction ops with
  | nil => intro w h; exact h
  | cons op ops ih =>
      intro w h
      simp only [run]
      exact ih _ (step_attempts_le _ _ h)

end BotWlfi

namespace BotWlfi

/-- C8: starting from the initial flat state, `reentry_attempts` stays within
[0,3] under every sequence of webhook and health-tick operations (it is a
natural number, so the lower bound is inherent); once it reaches 3 the
re-entry check is a complete no-op and a whole health tick can place no open
order, so automatic re-entry is disabled; and an external directional signal
that passes deduplication with valid data, no held long and a successful
open resets the counter to 0. -/
theorem C8_reentry_attempts_bound :
    (∀ ops : List Op, (run initial_state ops).tracker.reentry_attempts ≤ 3) ∧
    (∀ (t : PositionTracker) (now : ℚ) (snap : Snapshot) (fill : ℚ) (ook : Bool),
      3 ≤ t.reentry_attempts → check_reentry t now snap fill ook = (t, [])) ∧
    (∀ (t : PositionTracker) (n1 n2 : ℚ) (s1 s2 : Snapshot) (f : ℚ)
        (ook c1 c2 : Bool),
      3 ≤ t.reentry_attempts →
      ∀ o ∈ (health_tick t n1 n2 s1 s2 f ook c1 c2).2, o.is_open_order = false) ∧
    (∀ (w : AppState) (now : ℚ) (data : String) (snap : Snapshot) (fill : ℚ),
      ¬ (now - w.last_webhook_time < 2 ∧ w.last_webhook_data = some data) →
      0 < snap.balance → 0 < snap.price → ¬ 0 < snap.long_size →
      0 < calculate_quantity snap.balance snap.price → 0 < fill →
      (webhook w now data "long" snap fill true).1.tracker.reentry_attempts = 0) := by
  refine ⟨fun ops => run_attempts_le ops initial_state
      (by norm_num [initial_state, initial_tracker]),
    fun t now snap fill ook h => check_reentry_maxed t now snap fill ook h,
    fun t n1 n2 s1 s2 f ook c1 c2 h => health_tick_no_open t n1 n2 s1 s2 f ook c1 c2 h,
    ?_⟩
  intro w now data snap fill hdup hbal hp hlong hq hfill
  simp [webhook, open_position_market, hdup, hbal.not_le, hp.not_le, hlong,
    hq, hq.not_le, hfill.not_le]

/-- Witness for C8: a concrete tick from the initial state respects the cap;
a maxed-out LOCKED tracker yields a no-op re-entry check; and a concrete
long signal from the initial state resets the counter to 0. -/
theorem C8_reentry_attempts_bound_witness :
    (run initial_state [Op.tick 1 2 snapA snapA 1 true true true]).tracker.reentry_attempts ≤ 3 ∧
    check_reentry lockedTrackerMaxed 10 snapB 1 true = (lockedTrackerMaxed, []) ∧
    (webhook initial_state 10 "sig2" "long" snapA 1 true).1.tracker.reentry_attempts = 0 :=
  ⟨C8_reentry_attempts_bound.1 _,
    C8_reentry_attempts_bound.2.1 lockedTrackerMaxed 10 snapB 1 true
      (by norm_num [lockedTrackerMaxed]),
    C8_reentry_attempts_bound.2.2.2 initial_state 10 "sig2" snapA 1
      (by simp [initial_state]) (by norm_num [snapA]) (by norm_num [snapA])
      (by norm_num [snapA])
      (by show (0 : ℚ) < calculate_quantity 1000 1
          rw [calc_quantity_1000_1]
          norm_num)
      (by norm_num)⟩

end BotWlfi
